import Mathlib

/-!
Verification of the planning/agent-orchestration subsystem of the
motivational-printer repository.

Each definition is a shallow embedding of a function from the source tree:
  - constructTree, formatMessages      from src/lib/connectors/claude-ai/tree.mjs
  - the fallback branch of ClaudeAIConnector.getConversationMessages and the
    conversation-selection step of IMessageConnector.getConversationMessages
  - the temp-directory lifecycle of IMessageConnector
  - the tool dispatcher, the planning loop and loadLatestPlan from planner.mjs

JavaScript idioms are embedded as follows: a nullable or possibly absent
field becomes Option, JavaScript truthiness of a string value becomes
strTruthy, machine-level Date objects become Nat epoch values, thrown
exceptions become Except or an explicit error constructor, and the
possibly-nonterminating while loop in constructTree becomes a fuel-indexed
recursion where fuel equal to the message count plus one is exact on every
acyclic input (the theorems carry the corresponding length bound).
-/

namespace Printer

/-! ## Conversation tree data model (tree.mjs) -/

/-- One attachment of a chat message; the source reads att.extracted_content. -/
structure Attachment where
  extracted_content : String
deriving DecidableEq

/-- One structured content block; the source keeps blocks whose type field is
the string text and reads their text field. -/
structure ContentBlock where
  btype : String
  text : String
deriving DecidableEq

/-- A raw chat message as consumed by constructTree and formatMessages.
Fields that can be null or absent in the JSON are Option. Timestamps are
epoch numbers standing in for the ISO strings the source feeds to new Date. -/
structure ChatMessage where
  uuid : String
  parent_message_uuid : Option String
  text : Option String
  sender : String
  created_at : Nat
  updated_at : Nat
  attachments : Option (List Attachment)
  content : Option (List ContentBlock)
deriving DecidableEq

/-- JavaScript truthiness of a nullable string: null, undefined and the empty
string are falsy, every other string is truthy. -/
def strTruthy : Option String → Bool
  | none => false
  | some s => !s.isEmpty

/-- The id-to-message index of constructTree. Object.fromEntries keeps the
last entry for a duplicated key, so the lookup finds the last message with
the given uuid; a missing key yields undefined, embedded as none. -/
def lookupMsg (msgs : List ChatMessage) (u : String) : Option ChatMessage :=
  (msgs.filter (fun m => m.uuid == u)).getLast?

/-- The input record of constructTree. -/
structure FullData where
  chat_messages : List ChatMessage
  current_leaf_message_uuid : String

/-- The while loop of constructTree: while the current message has a truthy
parent reference, unshift it and follow the parent through the index; break
as soon as the current message is undefined or its parent reference is falsy.
The loop in the source has no bound; fuel only cuts runs that the source
would never finish (a parent cycle), and the theorems below always supply
enough fuel for the acyclic case. -/
def treeWalk (msgs : List ChatMessage) : Nat → Option ChatMessage → List ChatMessage
  | _, none => []
  | 0, some _ => []
  | fuel + 1, some m =>
    if strTruthy m.parent_message_uuid then
      treeWalk msgs fuel (m.parent_message_uuid.bind (lookupMsg msgs)) ++ [m]
    else
      []

/-- constructTree from tree.mjs: index the messages, start at the leaf
(returning the empty list when the leaf id is unknown) and run the walk. -/
def constructTree (fd : FullData) : List ChatMessage :=
  treeWalk fd.chat_messages (fd.chat_messages.length + 1)
    (lookupMsg fd.chat_messages fd.current_leaf_message_uuid)

theorem treeWalk_none (msgs : List ChatMessage) (fuel : Nat) :
    treeWalk msgs fuel none = [] := by
  cases fuel <;> rfl

theorem treeWalk_zero (msgs : List ChatMessage) (s : Option ChatMessage) :
    treeWalk msgs 0 s = [] := by
  cases s <;> rfl

theorem treeWalk_succ (msgs : List ChatMessage) (fuel : Nat) (m : ChatMessage) :
    treeWalk msgs (fuel + 1) (some m) =
      if strTruthy m.parent_message_uuid then
        treeWalk msgs fuel (m.parent_message_uuid.bind (lookupMsg msgs)) ++ [m]
      else
        [] := rfl

/-- Specification-level description of the parent walk starting from an
optional message: the walk is empty when the start is undefined or has a
falsy parent reference, and otherwise it is the walk from the parent lookup
followed by the start message itself. -/
inductive ChainFrom (msgs : List ChatMessage) : Option ChatMessage → List ChatMessage → Prop
  | missing : ChainFrom msgs none []
  | root (m : ChatMessage) (h : strTruthy m.parent_message_uuid = false) :
      ChainFrom msgs (some m) []
  | step (m : ChatMessage) (rest : List ChatMessage)
      (h : strTruthy m.parent_message_uuid = true)
      (hrest : ChainFrom msgs (m.parent_message_uuid.bind (lookupMsg msgs)) rest) :
      ChainFrom msgs (some m) (rest ++ [m])

theorem treeWalk_eq_of_chainFrom {msgs : List ChatMessage} {s : Option ChatMessage}
    {chain : List ChatMessage} (h : ChainFrom msgs s chain) :
    ∀ fuel, chain.length ≤ fuel → treeWalk msgs fuel s = chain := by
  induction h with
  | missing =>
    intro fuel _
    exact treeWalk_none msgs fuel
  | root m hm =>
    intro fuel _
    cases fuel with
    | zero => exact treeWalk_zero msgs (some m)
    | succ f => rw [treeWalk_succ, hm]; simp
  | step m rest hm hrest ih =>
    intro fuel hlen
    cases fuel with
    | zero => simp at hlen
    | succ f =>
      have hr : rest.length ≤ f := by
        simp [List.length_append] at hlen
        omega
      rw [treeWalk_succ, hm]
      simp [ih f hr]

theorem chainFrom_truthy {msgs : List ChatMessage} {s : Option ChatMessage}
    {chain : List ChatMessage} (h : ChainFrom msgs s chain) :
    ∀ m ∈ chain, strTruthy m.parent_message_uuid = true := by
  induction h with
  | missing => simp
  | root m hm => simp
  | step m rest hm hrest ih =>
    intro x hx
    rcases List.mem_append.mp hx with h1 | h2
    · exact ih x h1
    · have hx2 : x = m := by simpa using h2
      rw [hx2]; exact hm

theorem chainFrom_getLast {msgs : List ChatMessage} {m : ChatMessage}
    {chain : List ChatMessage} (h : ChainFrom msgs (some m) chain) (hne : chain ≠ []) :
    chain.getLast? = some m := by
  cases h with
  | root _ _ => exact absurd rfl hne
  | step _ rest hm hrest => exact List.getLast?_concat rest

/-! ## Claim theorems about constructTree -/

/-- Scenario A messages of the specification. -/
def msgA1 : ChatMessage :=
  { uuid := "m1", parent_message_uuid := none, text := some "hi", sender := "human",
    created_at := 0, updated_at := 0, attachments := none, content := none }

def msgA2 : ChatMessage :=
  { uuid := "m2", parent_message_uuid := some "m1", text := some "hello", sender := "assistant",
    created_at := 1, updated_at := 1, attachments := none, content := none }

/-- C1 counterexample: on Scenario A the reconstruction returns only the leaf
message m2, not the claimed path m1, m2 — the walk breaks on the message with
a falsy parent reference before adding it, so the parentless root is dropped. -/
theorem constructTree_scenarioA_drops_root :
    constructTree { chat_messages := [msgA1, msgA2], current_leaf_message_uuid := "m2" }
        = [msgA2] ∧
    constructTree { chat_messages := [msgA1, msgA2], current_leaf_message_uuid := "m2" }
        ≠ [msgA1, msgA2] := by
  decide

/-- C1 (amended): for an acyclic message set with a valid leaf id,
reconstruction returns the root-to-leaf parent chain, oldest first, but
excluding the first message reached whose parent reference is null or empty;
every returned message therefore carries a parent reference, and the length
equals the number of chain members that carry one. -/
theorem constructTree_excludes_root (msgs : List ChatMessage) (leaf : String)
    (chain : List ChatMessage)
    (hchain : ChainFrom msgs (lookupMsg msgs leaf) chain)
    (hacyclic : chain.length ≤ msgs.length + 1) :
    constructTree { chat_messages := msgs, current_leaf_message_uuid := leaf } = chain ∧
    ∀ m ∈ chain, strTruthy m.parent_message_uuid = true := by
  constructor
  · exact treeWalk_eq_of_chainFrom hchain (msgs.length + 1) hacyclic
  · exact chainFrom_truthy hchain

/-- Witness for the amended C1 theorem on the Scenario A input. -/
theorem constructTree_excludes_root_witness :
    constructTree { chat_messages := [msgA1, msgA2], current_leaf_message_uuid := "m2" }
        = [msgA2] ∧
    ∀ m ∈ [msgA2], strTruthy m.parent_message_uuid = true :=
  constructTree_excludes_root [msgA1, msgA2] "m2" [msgA2]
    (by
      rw [show lookupMsg [msgA1, msgA2] "m2" = some msgA2 from by decide]
      exact ChainFrom.step msgA2 [] (by decide)
        (by
          rw [show msgA2.parent_message_uuid.bind (lookupMsg [msgA1, msgA2]) = some msgA1
            from by decide]
          exact ChainFrom.root msgA1 (by decide)))
    (by decide)

/-- C8: a leaf id matching no message makes the reconstruction return
the empty list without raising. -/
theorem constructTree_unknown_leaf (msgs : List ChatMessage) (leaf : String)
    (h : ∀ m ∈ msgs, m.uuid ≠ leaf) :
    constructTree { chat_messages := msgs, current_leaf_message_uuid := leaf } = [] := by
  have hfilter : msgs.filter (fun m => m.uuid == leaf) = [] := by
    rw [List.filter_eq_nil_iff]
    intro a ha
    simpa using h a ha
  have hl : lookupMsg msgs leaf = none := by
    unfold lookupMsg
    rw [hfilter]
    rfl
  unfold constructTree
  simp only [hl]
  exact treeWalk_none _ _

/-- Witness for C8 on Scenario B: the leaf m3 is absent from the set. -/
theorem constructTree_unknown_leaf_witness :
    constructTree { chat_messages := [msgA1, msgA2], current_leaf_message_uuid := "m3" } = [] :=
  constructTree_unknown_leaf [msgA1, msgA2] "m3" (by decide)

/-- The two messages of the dangling-parent scenario: the oldest retrieved
message msgD points at a parent uuid that matches nothing in the set. -/
def msgD : ChatMessage :=
  { uuid := "d", parent_message_uuid := some "ghost", text := some "x", sender := "human",
    created_at := 0, updated_at := 0, attachments := none, content := none }

def msgE : ChatMessage :=
  { uuid := "e", parent_message_uuid := some "d", text := some "y", sender := "assistant",
    created_at := 1, updated_at := 1, attachments := none, content := none }

/-- C10: when the acyclic parent chain from the leaf reaches a message whose
parent reference matches nothing in the set, the reconstruction terminates
normally and returns exactly the chain from that message down to the leaf,
in root-to-leaf order, the leaf message being last. -/
theorem constructTree_dangling_parent (msgs : List ChatMessage) (leaf : String)
    (chain : List ChatMessage) (m0 : ChatMessage)
    (hchain : ChainFrom msgs (lookupMsg msgs leaf) chain)
    (hhead : chain.head? = some m0)
    (hdangling : m0.parent_message_uuid.bind (lookupMsg msgs) = none)
    (hacyclic : chain.length ≤ msgs.length + 1) :
    constructTree { chat_messages := msgs, current_leaf_message_uuid := leaf } = chain ∧
    chain.getLast? = lookupMsg msgs leaf := by
  have hne : chain ≠ [] := by
    intro hnil
    rw [hnil] at hhead
    exact Option.noConfusion hhead
  constructor
  · exact treeWalk_eq_of_chainFrom hchain (msgs.length + 1) hacyclic
  · cases hl : lookupMsg msgs leaf with
    | none =>
      rw [hl] at hchain
      cases hchain
      exact absurd rfl hne
    | some m =>
      rw [hl] at hchain
      exact chainFrom_getLast hchain hne

/-- Witness for C10 on the dangling-parent scenario. -/
theorem constructTree_dangling_parent_witness :
    constructTree { chat_messages := [msgD, msgE], current_leaf_message_uuid := "e" }
        = [msgD, msgE] ∧
    ([msgD, msgE] : List ChatMessage).getLast? = lookupMsg [msgD, msgE] "e" :=
  constructTree_dangling_parent [msgD, msgE] "e" [msgD, msgE] msgD
    (by
      rw [show lookupMsg [msgD, msgE] "e" = some msgE from by decide]
      exact ChainFrom.step msgE [msgD] (by decide)
        (by
          rw [show msgE.parent_message_uuid.bind (lookupMsg [msgD, msgE]) = some msgD
            from by decide]
          exact ChainFrom.step msgD [] (by decide)
            (by
              rw [show msgD.parent_message_uuid.bind (lookupMsg [msgD, msgE]) = none
                from by decide]
              exact ChainFrom.missing)))
    (by decide)
    (by decide)
    (by decide)

/-! ## Payload assembly (formatMessages in tree.mjs) -/

/-- Embedding of the JavaScript trim call: drop whitespace characters from
both ends of the string. Defined over the character list so that it can be
evaluated inside proofs. -/
def jsTrim (s : String) : String :=
  String.mk (((s.data.dropWhile Char.isWhitespace).reverse.dropWhile Char.isWhitespace).reverse)

theorem string_append_empty (s : String) : s ++ "" = s := by
  cases s with
  | mk d =>
    show String.mk (d ++ []) = String.mk d
    rw [List.append_nil]

theorem string_intercalate_nil (s : String) : s.intercalate [] = "" := rfl

/-- The output record of formatMessages. The source wraps created_at and
updated_at in new Date; dates are already Nat epochs in this embedding. -/
structure FormattedMessage where
  role : String
  text : String
  created_at : Nat
  updated_at : Nat
  uuid : String
deriving DecidableEq

/-- Per-message body of formatMessages: a truthy direct text field is used
trimmed; otherwise the message text starts empty, gains the attachment
extracted contents joined by blank lines when an attachments array is
present, gains the text of the content blocks whose type is text joined by
blank lines when a content array is present, and is trimmed at the end.
Nothing separates the attachment part from the content part. -/
def formatMessage (msg : ChatMessage) : FormattedMessage :=
  if strTruthy msg.text then
    { role := msg.sender, text := jsTrim (msg.text.getD ""),
      created_at := msg.created_at, updated_at := msg.updated_at, uuid := msg.uuid }
  else
    let t1 : String :=
      match msg.attachments with
      | none => ""
      | some atts => String.intercalate "\n\n" (atts.map (fun a => a.extracted_content))
    let t2 : String :=
      match msg.content with
      | none => t1
      | some conts =>
          t1 ++ String.intercalate "\n\n"
            ((conts.filter (fun c => c.btype == "text")).map (fun c => c.text))
    { role := msg.sender, text := jsTrim t2,
      created_at := msg.created_at, updated_at := msg.updated_at, uuid := msg.uuid }

/-- formatMessages from tree.mjs maps the per-message assembly over the
reconstructed lineage, keeping every position. -/
def formatMessages (treedMessages : List ChatMessage) : List FormattedMessage :=
  treedMessages.map formatMessage

/-- The payload-assembly rule as amended: the trimmed direct text field when
it is present and nonempty, and otherwise the attachment texts joined by
blank lines followed immediately, with no separator, by the text-typed
content-block texts joined by blank lines, the whole trimmed. -/
def assembleTextSpec (msg : ChatMessage) : String :=
  if strTruthy msg.text then
    jsTrim (msg.text.getD "")
  else
    jsTrim
    (String.intercalate "\n\n" ((msg.attachments.getD []).map (fun a => a.extracted_content))
      ++ String.intercalate "\n\n"
        (((msg.content.getD []).filter (fun c => c.btype == "text")).map (fun c => c.text)))

theorem formatMessage_text_eq (msg : ChatMessage) :
    (formatMessage msg).text = assembleTextSpec msg := by
  unfold formatMessage assembleTextSpec
  by_cases h : strTruthy msg.text
  · simp [h]
  · cases ha : msg.attachments <;> cases hc : msg.content <;>
      simp [h, ha, hc, string_intercalate_nil, string_append_empty]

/-- A message with an empty direct text field, one attachment and one text
content block: the direct text field is falsy so assembly falls through. -/
def msgBoth : ChatMessage :=
  { uuid := "b1", parent_message_uuid := none, text := some "", sender := "human",
    created_at := 0, updated_at := 0,
    attachments := some [{ extracted_content := "A" }],
    content := some [{ btype := "text", text := "B" }] }

/-- Same attachment and content block but with the direct text field absent. -/
def msgNoDirect : ChatMessage :=
  { uuid := "b2", parent_message_uuid := none, text := none, sender := "human",
    created_at := 0, updated_at := 0,
    attachments := some [{ extracted_content := "A" }],
    content := some [{ btype := "text", text := "B" }] }

/-- C7 counterexample: the first message has a direct text field (the empty
string) yet its output is AB, not the trimmed direct text; the second message
shows the attachment text and content text concatenated with no blank line
between the two groups, AB rather than A, blank line, B. -/
theorem formatMessages_no_group_separator :
    (formatMessages [msgBoth, msgNoDirect]).map (fun m => m.text) = ["AB", "AB"] ∧
    ("AB" : String) ≠ "" ∧
    ("AB" : String) ≠ "A\n\nB" := by
  refine ⟨by decide, by decide, by decide⟩

/-- C7 (amended): for every reconstructed message the assembled payload is
the trimmed direct text field when that field is present and nonempty, and
otherwise the blank-line-joined attachment texts followed immediately, with
no separator between the groups, by the blank-line-joined text-typed content
blocks, then trimmed; every message is kept in the output at its position
with its uuid, an empty assembly becoming the empty string. -/
theorem formatMessages_assembly (l : List ChatMessage) :
    (formatMessages l).map (fun m => m.text) = l.map assembleTextSpec ∧
    (formatMessages l).map (fun m => m.uuid) = l.map (fun m => m.uuid) ∧
    (formatMessages l).length = l.length := by
  refine ⟨?_, ?_, by simp [formatMessages]⟩
  · unfold formatMessages
    rw [List.map_map]
    exact List.map_congr_left (fun a _ => formatMessage_text_eq a)
  · unfold formatMessages
    rw [List.map_map]
    refine List.map_congr_left (fun a _ => ?_)
    unfold formatMessage
    by_cases h : strTruthy a.text <;> simp [h]

/-! ## Tool dispatch (the private executeTool method of the Planner) -/

/-- The argument object of one tool call; every field may be absent. -/
structure ToolParams where
  start_date : Option String
  end_date : Option String
  conversation_id : Option String
deriving DecidableEq

/-- A normalized conversation summary as returned by the connectors; the
name field exists only on the AI-dialogue side and is embedded as Option. -/
structure ConvSummary where
  id : String
  name : Option String
  participants : List String
  lastMessageDate : Nat
  messageCount : Nat
deriving DecidableEq

/-- A normalized message as returned by either connector. -/
structure MessageOut where
  id : String
  text : String
  sender : String
  timestamp : Nat
  isFromMe : Bool
deriving DecidableEq

/-- The value a dispatch call returns: the conversations object, the
messages object, or the structured error object built in the catch block. -/
inductive ToolOutcome
  | conversationsResult (conversations : List ConvSummary) (count : Nat) (date_range : String)
  | messagesResult (messages : List MessageOut) (count : Nat) (conversation_id : Option String)
  | errorResult (error : String) (tool : String) (parameters : ToolParams)
deriving DecidableEq

/-- The four connector operations the dispatcher can invoke; a connector
failure of any kind (I/O, parse, auth, a thrown TypeError) is an Except
error carrying the message the catch block would see. -/
structure Connectors where
  imessageGetConversations : Option String → Option String → Except String (List ConvSummary)
  imessageGetConversationMessages :
    Option String → Option String → Option String → Except String (List MessageOut)
  claudeGetConversations : Option String → Option String → Except String (List ConvSummary)
  claudeGetConversationMessages :
    Option String → Option String → Option String → Except String (List MessageOut)

/-- A JavaScript template literal renders an absent value as the string
undefined. -/
def optToString (o : Option String) : String := o.getD "undefined"

/-- The names the switch statement of the dispatcher recognizes. -/
def registeredToolNames : List String :=
  ["imessage_get_conversations", "imessage_get_conversation_messages",
   "claude_ai_get_conversations", "claude_ai_get_conversation_messages"]

/-- The private executeTool method of the Planner: a switch on the tool name
inside a try block whose catch converts any thrown error, including the
Unknown-tool error thrown by the default case, into the structured error
object with the error message, the tool name and the parameters. -/
def executeTool (c : Connectors) (toolName : String) (p : ToolParams) : ToolOutcome :=
  if toolName == "imessage_get_conversations" then
    match c.imessageGetConversations p.start_date p.end_date with
    | .ok convs =>
        .conversationsResult convs convs.length
          (optToString p.start_date ++ " to " ++ optToString p.end_date)
    | .error e => .errorResult e toolName p
  else if toolName == "imessage_get_conversation_messages" then
    match c.imessageGetConversationMessages p.conversation_id p.start_date p.end_date with
    | .ok ms => .messagesResult ms ms.length p.conversation_id
    | .error e => .errorResult e toolName p
  else if toolName == "claude_ai_get_conversations" then
    match c.claudeGetConversations p.start_date p.end_date with
    | .ok convs =>
        .conversationsResult convs convs.length
          (optToString p.start_date ++ " to " ++ optToString p.end_date)
    | .error e => .errorResult e toolName p
  else if toolName == "claude_ai_get_conversation_messages" then
    match c.claudeGetConversationMessages p.conversation_id p.start_date p.end_date with
    | .ok ms => .messagesResult ms ms.length p.conversation_id
    | .error e => .errorResult e toolName p
  else
    .errorResult ("Unknown tool: " ++ toolName) toolName p

/-- C4: dispatch always returns a value. An unregistered tool name yields
the structured Unknown-tool error object, and for each registered tool name
a connector failure is caught and returned as the structured error object
carrying the failure message. -/
theorem executeTool_total_and_structured (c : Connectors) (p : ToolParams) :
    (∀ n, n ∉ registeredToolNames →
        executeTool c n p = .errorResult ("Unknown tool: " ++ n) n p) ∧
    (∀ e, c.imessageGetConversations p.start_date p.end_date = .error e →
        executeTool c "imessage_get_conversations" p
          = .errorResult e "imessage_get_conversations" p) ∧
    (∀ e, c.imessageGetConversationMessages p.conversation_id p.start_date p.end_date = .error e →
        executeTool c "imessage_get_conversation_messages" p
          = .errorResult e "imessage_get_conversation_messages" p) ∧
    (∀ e, c.claudeGetConversations p.start_date p.end_date = .error e →
        executeTool c "claude_ai_get_conversations" p
          = .errorResult e "claude_ai_get_conversations" p) ∧
    (∀ e, c.claudeGetConversationMessages p.conversation_id p.start_date p.end_date = .error e →
        executeTool c "claude_ai_get_conversation_messages" p
          = .errorResult e "claude_ai_get_conversation_messages" p) := by
  refine ⟨?_, ?_, ?_, ?_, ?_⟩
  · intro n hn
    simp only [registeredToolNames, List.mem_cons, List.not_mem_nil, or_false, not_or] at hn
    obtain ⟨h1, h2, h3, h4⟩ := hn
    simp [executeTool, h1, h2, h3, h4]
  · intro e he
    simp [executeTool, he]
  · intro e he
    simp [executeTool, he]
  · intro e he
    simp [executeTool, he]
  · intro e he
    simp [executeTool, he]

/-- A connector assignment in which every operation fails with the message
boom, used to witness the dispatch theorems on concrete inputs. -/
def failingConnectors : Connectors :=
  { imessageGetConversations := fun _ _ => .error "boom",
    imessageGetConversationMessages := fun _ _ _ => .error "boom",
    claudeGetConversations := fun _ _ => .error "boom",
    claudeGetConversationMessages := fun _ _ _ => .error "boom" }

def emptyParams : ToolParams :=
  { start_date := none, end_date := none, conversation_id := none }

/-- Witness for C4: the Unknown-tool error for a concrete unregistered name
and the caught connector failure for a concrete registered name. -/
theorem executeTool_total_and_structured_witness :
    executeTool failingConnectors "bogus_tool" emptyParams
      = .errorResult ("Unknown tool: " ++ "bogus_tool") "bogus_tool" emptyParams ∧
    executeTool failingConnectors "imessage_get_conversations" emptyParams
      = .errorResult "boom" "imessage_get_conversations" emptyParams :=
  ⟨(executeTool_total_and_structured failingConnectors emptyParams).1 "bogus_tool" (by decide),
   (executeTool_total_and_structured failingConnectors emptyParams).2.1 "boom" rfl⟩

/-! ## The planning loop (generatePlan in planner.mjs) -/

/-- One content block of a model response: narrative text or a tool call. -/
inductive Block
  | text (t : String)
  | toolUse (id : String) (toolName : String) (input : ToolParams)
deriving DecidableEq

/-- One tool-result entry of the reply turn: the id of the tool call it
answers and the dispatch outcome (the source stores its JSON rendering). -/
structure ToolResultBlock where
  tool_use_id : String
  content : ToolOutcome
deriving DecidableEq

/-- One transcript turn: the opening user turn, an assistant response turn,
or the user-role turn packaging the tool results of one round. -/
inductive Turn
  | user (content : String)
  | assistant (content : List Block)
  | toolResults (results : List ToolResultBlock)
deriving DecidableEq

/-- The tool-call blocks of a response, in order, projected to the fields
the loop uses: call id, tool name and arguments. -/
def toolUseData : List Block → List (String × String × ToolParams)
  | [] => []
  | Block.text _ :: bs => toolUseData bs
  | Block.toolUse i n a :: bs => (i, n, a) :: toolUseData bs

/-- The narrative-text blocks of a response, in order. -/
def textBlockTexts : List Block → List String
  | [] => []
  | Block.text t :: bs => t :: textBlockTexts bs
  | Block.toolUse _ _ _ :: bs => textBlockTexts bs

/-- Termination of one planning run: the saved success result carrying the
raw planning text and the final transcript, or the thrown iteration error.
The source throws Error with the message and drops the local transcript;
the failure constructor keeps the loop state so it can be reasoned about. -/
inductive PlanOutcome
  | success (planningResult : String) (transcript : List Turn)
  | failure (errorMessage : String) (transcript : List Turn)
deriving DecidableEq

def PlanOutcome.transcript : PlanOutcome → List Turn
  | .success _ t => t
  | .failure _ t => t

/-- The while loop of generatePlan, indexed by the remaining iteration
budget (the source counts iterations up to maxIterations = 10; remaining is
maxIterations minus iterations). Each pass sends the transcript to the
model, appends the assistant response, and either terminates successfully
when the response holds no tool-call block or executes every requested tool
in order, appends the packaged results as one user-role turn, and loops. -/
def planLoop (model : List Turn → List Block) (execT : String → ToolParams → ToolOutcome) :
    List Turn → Nat → PlanOutcome
  | msgs, 0 => .failure "Planning exceeded maximum iterations" msgs
  | msgs, r + 1 =>
    let response := model msgs
    let withAssistant := msgs ++ [Turn.assistant response]
    let toolUses := toolUseData response
    if toolUses.isEmpty then
      PlanOutcome.success (String.intercalate "\n" (textBlockTexts response)) withAssistant
    else
      planLoop model execT
        (withAssistant ++
          [Turn.toolResults (toolUses.map
            (fun u => { tool_use_id := u.1, content := execT u.2.1 u.2.2 }))])
        r

/-- generatePlan: one opening user turn, then the loop with a budget of 10. -/
def generatePlan (model : List Turn → List Block)
    (execT : String → ToolParams → ToolOutcome) (opening : String) : PlanOutcome :=
  planLoop model execT [Turn.user opening] 10

/-- The number of assistant turns of a transcript: one per full model round. -/
def countAssistant (l : List Turn) : Nat :=
  l.countP (fun t => match t with | Turn.assistant _ => true | _ => false)

theorem countAssistant_append (a b : List Turn) :
    countAssistant (a ++ b) = countAssistant a + countAssistant b :=
  List.countP_append _ _ _

theorem planLoop_rounds_le (model : List Turn → List Block)
    (execT : String → ToolParams → ToolOutcome) :
    ∀ (r : Nat) (msgs : List Turn),
      countAssistant (planLoop model execT msgs r).transcript ≤ countAssistant msgs + r := by
  intro r
  induction r with
  | zero =>
    intro msgs
    simp [planLoop, PlanOutcome.transcript]
  | succ n ih =>
    intro msgs
    by_cases h : (toolUseData (model msgs)).isEmpty
    · simp only [planLoop, h, if_true]
      simp [PlanOutcome.transcript, countAssistant_append, countAssistant]
    · simp only [planLoop, h, if_false, Bool.false_eq_true]
      refine le_trans (ih _) ?_
      simp [countAssistant_append, countAssistant]
      omega

theorem planLoop_always_tools (model : List Turn → List Block)
    (execT : String → ToolParams → ToolOutcome)
    (h : ∀ msgs, toolUseData (model msgs) ≠ []) :
    ∀ (r : Nat) (msgs : List Turn),
      ∃ t, planLoop model execT msgs r = .failure "Planning exceeded maximum iterations" t ∧
        countAssistant t = countAssistant msgs + r := by
  intro r
  induction r with
  | zero =>
    intro msgs
    exact ⟨msgs, rfl, by simp⟩
  | succ n ih =>
    intro msgs
    have hne : (toolUseData (model msgs)).isEmpty = false := by
      rw [List.isEmpty_eq_false]
      exact h msgs
    obtain ⟨t, ht, hcount⟩ := ih
      (msgs ++ [Turn.assistant (model msgs)] ++
        [Turn.toolResults ((toolUseData (model msgs)).map
          (fun u => { tool_use_id := u.1, content := execT u.2.1 u.2.2 }))])
    refine ⟨t, ?_, ?_⟩
    · simp only [planLoop, hne, if_false, Bool.false_eq_true]
      exact ht
    · rw [hcount]
      simp [countAssistant_append, countAssistant]
      omega

/-- C3: for every model behavior the loop performs at most 10 full rounds,
and a model that requests tools on every response drives exactly 10 rounds,
not 11, after which the run ends with the distinct exceeded-maximum-
iterations error, the transcript still holding all 10 rounds. -/
theorem generatePlan_iteration_ceiling (model : List Turn → List Block)
    (execT : String → ToolParams → ToolOutcome) (opening : String) :
    countAssistant (generatePlan model execT opening).transcript ≤ 10 ∧
    ((∀ msgs, toolUseData (model msgs) ≠ []) →
      ∃ t, generatePlan model execT opening = .failure "Planning exceeded maximum iterations" t ∧
        countAssistant t = 10) := by
  constructor
  · have := planLoop_rounds_le model execT 10 [Turn.user opening]
    simpa [countAssistant] using this
  · intro h
    obtain ⟨t, ht, hcount⟩ := planLoop_always_tools model execT h 10 [Turn.user opening]
    exact ⟨t, ht, by simpa [countAssistant] using hcount⟩

/-- A model that requests one tool call on every response. -/
def alwaysToolModel : List Turn → List Block :=
  fun _ => [Block.toolUse "call-1" "imessage_get_conversations" emptyParams]

/-- A dispatcher stub used to witness the loop theorems. -/
def stubExec : String → ToolParams → ToolOutcome :=
  fun n p => ToolOutcome.errorResult "stub" n p

/-- Witness for C3 on the always-requesting model. -/
theorem generatePlan_iteration_ceiling_witness :
    countAssistant (generatePlan alwaysToolModel stubExec "go").transcript ≤ 10 ∧
    (∃ t, generatePlan alwaysToolModel stubExec "go"
        = .failure "Planning exceeded maximum iterations" t ∧
      countAssistant t = 10) :=
  ⟨(generatePlan_iteration_ceiling alwaysToolModel stubExec "go").1,
   (generatePlan_iteration_ceiling alwaysToolModel stubExec "go").2
     (fun _ hx => List.noConfusion hx)⟩

/-- C5 (amended): a response with zero tool-call blocks terminates the run
in success, the raw planning result being the narrative-text blocks joined
by newlines, and the transcript being the previous turns plus that one
assistant turn; when the first response has zero tool-call blocks the final
transcript has length 2, the opening user turn plus the response. -/
theorem generatePlan_zero_toolcalls (model : List Turn → List Block)
    (execT : String → ToolParams → ToolOutcome) (opening : String) :
    (∀ msgs r, toolUseData (model msgs) = [] →
      planLoop model execT msgs (r + 1) =
        .success (String.intercalate "\n" (textBlockTexts (model msgs)))
          (msgs ++ [Turn.assistant (model msgs)])) ∧
    (toolUseData (model [Turn.user opening]) = [] →
      generatePlan model execT opening =
        .success (String.intercalate "\n" (textBlockTexts (model [Turn.user opening])))
          [Turn.user opening, Turn.assistant (model [Turn.user opening])] ∧
      (generatePlan model execT opening).transcript.length = 2) := by
  have hb : ∀ msgs r, toolUseData (model msgs) = [] →
      planLoop model execT msgs (r + 1) =
        .success (String.intercalate "\n" (textBlockTexts (model msgs)))
          (msgs ++ [Turn.assistant (model msgs)]) := by
    intro msgs r hh
    simp [planLoop, hh]
  refine ⟨hb, ?_⟩
  intro hh
  have h2 := hb [Turn.user opening] 9 hh
  constructor
  · exact h2
  · rw [show generatePlan model execT opening = planLoop model execT [Turn.user opening] 10
      from rfl, h2]
    rfl

/-- A model whose first response is two narrative-text blocks and no tool
call. -/
def twoTextModel : List Turn → List Block :=
  fun _ => [Block.text "a", Block.text "b"]

/-- C5 counterexample: with a first response of two text blocks and zero
tool-call blocks the run terminates in success, but the final transcript has
length 2, not 1, and the raw planning result is the blocks joined by a
newline, not their plain concatenation. -/
theorem generatePlan_zero_toolcalls_transcript_len :
    generatePlan twoTextModel stubExec "go"
      = .success "a\nb" [Turn.user "go", Turn.assistant [Block.text "a", Block.text "b"]] ∧
    (generatePlan twoTextModel stubExec "go").transcript.length = 2 ∧
    (generatePlan twoTextModel stubExec "go").transcript.length ≠ 1 ∧
    ("a\nb" : String) ≠ "ab" := by
  refine ⟨by decide, by decide, by decide, by decide⟩

/-- Witness for the amended C5 theorem on the two-text-block model. -/
theorem generatePlan_zero_toolcalls_witness :
    generatePlan twoTextModel stubExec "go" =
      .success (String.intercalate "\n" (textBlockTexts (twoTextModel [Turn.user "go"])))
        [Turn.user "go", Turn.assistant (twoTextModel [Turn.user "go"])] ∧
    (generatePlan twoTextModel stubExec "go").transcript.length = 2 :=
  (generatePlan_zero_toolcalls twoTextModel stubExec "go").2 rfl

/-! ## Loading the latest planning result (the static loadLatestPlan) -/

/-- The metadata record written beside each run, referencing the enhanced
prompt, the timestamped raw result and the timestamped transcript. -/
structure PlanMetadata where
  timestamp : String
  date : String
  promptPath : String
  fullResultPath : String
  conversationPath : String
  daysLookedBack : Nat
deriving DecidableEq

/-- The content of one file of the planning-output directory: plain text, or
the JSON metadata record (held parsed, standing for its serialization). -/
inductive FileData
  | text (s : String)
  | meta (m : PlanMetadata)
deriving DecidableEq

/-- What loadLatestPlan hands to its caller. -/
structure LoadedPlan where
  enhancedUserPrompt : String
  metadata : PlanMetadata
deriving DecidableEq

/-- The static loadLatestPlan, over a filesystem embedded as a path-to-file
association list: throw the distinct no-planning-result error when the
metadata file does not exist, parse it, throw the distinct prompt-missing
error when the file at its promptPath does not exist, and otherwise return
that file content together with the metadata. The raw-result and transcript
paths of the metadata are never consulted. -/
def loadLatestPlan (fs : List (String × FileData)) (planningDir : String) :
    Except String LoadedPlan :=
  let metadataPath := planningDir ++ "/latest-plan-metadata.json"
  match fs.lookup metadataPath with
  | none => .error "No planning result found. Run npm run plan first."
  | some (FileData.text _) => .error "SyntaxError: the latest plan metadata is not valid JSON"
  | some (FileData.meta md) =>
    match fs.lookup md.promptPath with
    | none => .error "Enhanced user prompt file not found. Run npm run plan first."
    | some fd =>
      .ok { enhancedUserPrompt := match fd with | FileData.text s => s | FileData.meta _ => "",
            metadata := md }

/-- A complete metadata record whose raw-result and transcript paths point
at files that are absent from the store below. -/
def mdOrphan : PlanMetadata :=
  { timestamp := "2025-01-01T00-00-00Z", date := "January 1, 2025",
    promptPath := "planning-output/enhanced-user-prompt.md",
    fullResultPath := "planning-output/planning-result-gone.md",
    conversationPath := "planning-output/conversation-history-gone.json",
    daysLookedBack := 7 }

/-- A store holding the metadata record and the enhanced prompt but neither
the raw result nor the transcript the metadata references. -/
def fsOrphan : List (String × FileData) :=
  [("planning-output/latest-plan-metadata.json", FileData.meta mdOrphan),
   ("planning-output/enhanced-user-prompt.md", FileData.text "P")]

/-- C6 counterexample: with the raw-result and transcript files referenced
by the metadata both missing, loadLatestPlan still succeeds instead of
failing, so the claim that it fails whenever any referenced file is missing
is false on the code. -/
theorem loadLatestPlan_ignores_missing_artifacts :
    loadLatestPlan fsOrphan "planning-output"
      = .ok { enhancedUserPrompt := "P", metadata := mdOrphan } ∧
    fsOrphan.lookup mdOrphan.fullResultPath = none ∧
    fsOrphan.lookup mdOrphan.conversationPath = none := by
  refine ⟨rfl, by decide, by decide⟩

/-- C6 (amended): loadLatestPlan fails with the distinct no-planning-result
error in every state where the metadata record is absent, fails with the
distinct prompt-missing error when the metadata is present but the enhanced
prompt file it references is absent, and otherwise returns exactly the
stored prompt content with the stored metadata; the raw-result and
transcript paths are not checked. -/
theorem loadLatestPlan_failure_modes (fs : List (String × FileData)) (dir : String) :
    (fs.lookup (dir ++ "/latest-plan-metadata.json") = none →
      loadLatestPlan fs dir = .error "No planning result found. Run npm run plan first.") ∧
    (∀ md, fs.lookup (dir ++ "/latest-plan-metadata.json") = some (FileData.meta md) →
      (fs.lookup md.promptPath = none →
        loadLatestPlan fs dir
          = .error "Enhanced user prompt file not found. Run npm run plan first.") ∧
      (∀ s, fs.lookup md.promptPath = some (FileData.text s) →
        loadLatestPlan fs dir = .ok { enhancedUserPrompt := s, metadata := md })) := by
  constructor
  · intro h
    simp [loadLatestPlan, h]
  · intro md hmd
    constructor
    · intro hp
      simp [loadLatestPlan, hmd, hp]
    · intro s hp
      simp [loadLatestPlan, hmd, hp]

/-- The store of a completed run: metadata plus the prompt file. -/
def fsComplete : List (String × FileData) :=
  [("planning-output/latest-plan-metadata.json", FileData.meta mdOrphan),
   ("planning-output/enhanced-user-prompt.md", FileData.text "P")]

/-- Witness for the amended C6 theorem: the empty store fails with the
no-planning-result error, a store missing only the prompt file fails with
the prompt-missing error, and a complete store returns the stored prompt. -/
theorem loadLatestPlan_failure_modes_witness :
    loadLatestPlan [] "planning-output"
      = .error "No planning result found. Run npm run plan first." ∧
    loadLatestPlan [("planning-output/latest-plan-metadata.json", FileData.meta mdOrphan)]
        "planning-output"
      = .error "Enhanced user prompt file not found. Run npm run plan first." ∧
    loadLatestPlan fsComplete "planning-output"
      = .ok { enhancedUserPrompt := "P", metadata := mdOrphan } :=
  ⟨(loadLatestPlan_failure_modes [] "planning-output").1 rfl,
   (((loadLatestPlan_failure_modes
      [("planning-output/latest-plan-metadata.json", FileData.meta mdOrphan)]
      "planning-output").2 mdOrphan rfl).1 rfl),
   (((loadLatestPlan_failure_modes fsComplete "planning-output").2 mdOrphan rfl).2 "P" rfl)⟩

/-! ## Connector message lookup (unknown conversation ids) -/

/-- One raw AI-dialogue conversation as held by the local-storage or mock
fallback of the AI connector. -/
structure ClaudeConversation where
  uuid : String
  name : Option String
  updated_at : Nat
  chat_messages : Option (List ChatMessage)
  current_leaf_message_uuid : String
deriving DecidableEq

/-- The inclusive date-range filter both connectors apply: an absent bound
always passes, embedding the falsy check on an undefined Date. -/
def inRange (sd ed : Option Nat) (t : Nat) : Bool :=
  (match sd with | none => true | some s => decide (s ≤ t)) &&
  (match ed with | none => true | some e => decide (t ≤ e))

/-- The normalization step at the end of getConversationMessages on the AI
side: role human maps to sender human and isFromMe true, anything else to
assistant. -/
def toMessageOut (m : FormattedMessage) : MessageOut :=
  { id := m.uuid, text := m.text,
    sender := if m.role == "human" then "human" else "assistant",
    timestamp := m.created_at, isFromMe := m.role == "human" }

/-- The fallback branch of the AI connector getConversationMessages: find
the conversation by uuid, return the empty list when it is absent or has no
chat_messages field, and otherwise linearize with constructTree, assemble
with formatMessages, filter by date and normalize. -/
def claudeGetConversationMessagesFallback (convs : List ClaudeConversation)
    (conversationId : String) (sd ed : Option Nat) : List MessageOut :=
  match convs.find? (fun c => c.uuid == conversationId) with
  | none => []
  | some conv =>
    match conv.chat_messages with
    | none => []
    | some msgs =>
      let tree := constructTree
        { chat_messages := msgs, current_leaf_message_uuid := conv.current_leaf_message_uuid }
      let formatted := formatMessages tree
      (formatted.filter (fun m => inRange sd ed m.created_at)).map toMessageOut

/-- One conversation parsed from the exported transcript directory of the
personal-messaging connector. -/
structure ParsedConv where
  id : String
  participants : List String
  lastMessageDate : Nat
  messageCount : Nat
  messages : List MessageOut
deriving DecidableEq

/-- The selection step of the personal-messaging getConversationMessages
after export and parsing: return the messages of the conversation whose id
matches exactly, and when no conversation matches return the messages of
every parsed conversation concatenated, as the source comments state, to
handle ids that do not match exactly. -/
def imessageSelectMessages (parsed : List ParsedConv) (conversationId : String) :
    List MessageOut :=
  match parsed.find? (fun c => c.id == conversationId) with
  | some conv => conv.messages
  | none => (parsed.map (fun c => c.messages)).flatten

/-- A one-message parsed conversation used in the C2 counterexample. -/
def sampleParsedMsg : MessageOut :=
  { id := "c1.txt-0", text := "hey", sender := "+15550000000", timestamp := 5, isFromMe := false }

def sampleParsedConv : ParsedConv :=
  { id := "c1", participants := ["+15550000000"], lastMessageDate := 5,
    messageCount := 1, messages := [sampleParsedMsg] }

/-- C2 counterexample: the personal-messaging connector, asked for a
conversation id that matches nothing, returns every exported message rather
than the empty sequence. -/
theorem imessage_unknown_id_returns_all :
    imessageSelectMessages [sampleParsedConv] "no-such-conversation" = [sampleParsedMsg] ∧
    imessageSelectMessages [sampleParsedConv] "no-such-conversation" ≠ [] := by
  refine ⟨by decide, by decide⟩

/-- C2 (amended): neither connector raises on an unknown conversation id;
the AI connector fallback returns the empty sequence, while the
personal-messaging connector returns the concatenation of the messages of
every exported conversation, which is empty only when nothing was parsed. -/
theorem getConversationMessages_unknown_id (parsed : List ParsedConv)
    (convs : List ClaudeConversation) (cid1 cid2 : String) (sd ed : Option Nat)
    (h1 : ∀ c ∈ parsed, c.id ≠ cid1)
    (h2 : ∀ c ∈ convs, c.uuid ≠ cid2) :
    imessageSelectMessages parsed cid1 = (parsed.map (fun c => c.messages)).flatten ∧
    claudeGetConversationMessagesFallback convs cid2 sd ed = [] := by
  constructor
  · have hf : parsed.find? (fun c => c.id == cid1) = none := by
      rw [List.find?_eq_none]
      intro c hc
      simpa using h1 c hc
    simp [imessageSelectMessages, hf]
  · have hf : convs.find? (fun c => c.uuid == cid2) = none := by
      rw [List.find?_eq_none]
      intro c hc
      simpa using h2 c hc
    simp [claudeGetConversationMessagesFallback, hf]

/-- A mock AI conversation mirroring the built-in example data. -/
def mockClaudeConv : ClaudeConversation :=
  { uuid := "mock-conv-1", name := some "Mock Conversation 1", updated_at := 3,
    chat_messages := some [msgA1, msgA2], current_leaf_message_uuid := "m2" }

/-- Witness for the amended C2 theorem on concrete stores. -/
theorem getConversationMessages_unknown_id_witness :
    imessageSelectMessages [sampleParsedConv] "no-such-conversation"
      = ([sampleParsedConv].map (fun c => c.messages)).flatten ∧
    claudeGetConversationMessagesFallback [mockClaudeConv] "hallucinated-id" none none = [] :=
  getConversationMessages_unknown_id [sampleParsedConv] [mockClaudeConv]
    "no-such-conversation" "hallucinated-id" none none (by decide) (by decide)

/-! ## Temp-directory lifecycle of the personal-messaging connector -/

/-- Filesystem effects the connector performs on its export directory. -/
inductive FsEvent
  | mkdir (path : String)
  | runExporter (path : String)
  | remove (path : String)
deriving DecidableEq

/-- The connector state: the single export directory path, fixed by the
constructor from the construction-time clock value. -/
structure IMessageConnector where
  tempDir : String
deriving DecidableEq

/-- The constructor: join of the system temp directory, embedded as the
literal tmp segment, and the imessage-export name derived from Date.now. -/
def mkIMessageConnector (now : Nat) : IMessageConnector :=
  { tempDir := "/tmp/imessage-export-" ++ toString now }

/-- The observable run of one connector call: the ordered directory events,
the returned or thrown result, and whether the directory remains. -/
structure CallTrace (α : Type) where
  events : List FsEvent
  result : Except String α
  dirExistsAfter : Bool

/-- The directory side of executeExporter: create the export directory when
it does not exist, then run the export tool against it. The exporter may
throw; the directory has been ensured either way. -/
def executeExporterEvents (c : IMessageConnector) (dirExists : Bool) : List FsEvent :=
  (if dirExists then [] else [FsEvent.mkdir c.tempDir]) ++ [FsEvent.runExporter c.tempDir]

/-- The cleanup method: remove the export directory when it exists. -/
def cleanupEvents (c : IMessageConnector) (dirExists : Bool) : List FsEvent :=
  if dirExists then [FsEvent.remove c.tempDir] else []

/-- getConversations as a trace: run the exporter inside a try whose finally
always runs cleanup; on success parse the export and return the summaries
stripped of their message lists, on an exporter failure rethrow it after the
cleanup. The export parsing result is a parameter, the claim under study
being about the directory discipline. -/
def getConversationsRun (c : IMessageConnector) (dirExists : Bool)
    (exporterOutcome : Except String Unit) (parsed : List ParsedConv) :
    CallTrace (List ConvSummary) :=
  let body := executeExporterEvents c dirExists
  let fin := cleanupEvents c true
  match exporterOutcome with
  | .error e => { events := body ++ fin, result := .error e, dirExistsAfter := false }
  | .ok _ =>
    { events := body ++ fin,
      result := .ok (parsed.map (fun conv =>
        { id := conv.id, name := none, participants := conv.participants,
          lastMessageDate := conv.lastMessageDate, messageCount := conv.messageCount })),
      dirExistsAfter := false }

/-- getConversationMessages as a trace: same try and finally shape, with the
conversation selection applied to the parsed export on success. -/
def getConversationMessagesRun (c : IMessageConnector) (conversationId : String)
    (dirExists : Bool) (exporterOutcome : Except String Unit) (parsed : List ParsedConv) :
    CallTrace (List MessageOut) :=
  let body := executeExporterEvents c dirExists
  let fin := cleanupEvents c true
  match exporterOutcome with
  | .error e => { events := body ++ fin, result := .error e, dirExistsAfter := false }
  | .ok _ =>
    { events := body ++ fin,
      result := .ok (imessageSelectMessages parsed conversationId),
      dirExistsAfter := false }

/-- C9 counterexample: the export directory is fixed by the constructor, so
two successive calls on one connector instance create and remove the same
path with no fresh directory per call. -/
theorem imessage_tempDir_reused :
    (getConversationsRun (mkIMessageConnector 1700000000) false (.ok ()) []).events
      = [FsEvent.mkdir "/tmp/imessage-export-1700000000",
         FsEvent.runExporter "/tmp/imessage-export-1700000000",
         FsEvent.remove "/tmp/imessage-export-1700000000"] ∧
    (getConversationMessagesRun (mkIMessageConnector 1700000000) "c1" false (.ok ()) []).events
      = [FsEvent.mkdir "/tmp/imessage-export-1700000000",
         FsEvent.runExporter "/tmp/imessage-export-1700000000",
         FsEvent.remove "/tmp/imessage-export-1700000000"] := by
  refine ⟨by decide, by decide⟩

/-- C9 (amended): every call of either operation ends by removing the export
directory, on the success path and on the exporter-failure path alike, and
leaves the directory absent; the directory path itself is the one fixed at
construction, shared by every call on the instance rather than fresh per
call. -/
theorem imessage_cleanup_every_exit (c : IMessageConnector) (b : Bool)
    (eo : Except String Unit) (parsed : List ParsedConv) (cid : String) :
    (getConversationsRun c b eo parsed).events.getLast? = some (FsEvent.remove c.tempDir) ∧
    (getConversationsRun c b eo parsed).dirExistsAfter = false ∧
    (getConversationMessagesRun c cid b eo parsed).events.getLast?
      = some (FsEvent.remove c.tempDir) ∧
    (getConversationMessagesRun c cid b eo parsed).dirExistsAfter = false := by
  cases eo with
  | error e =>
    refine ⟨?_, rfl, ?_, rfl⟩ <;>
      simp [getConversationsRun, getConversationMessagesRun, executeExporterEvents,
        cleanupEvents, List.getLast?_concat]
  | ok u =>
    refine ⟨?_, rfl, ?_, rfl⟩ <;>
      simp [getConversationsRun, getConversationMessagesRun, executeExporterEvents,
        cleanupEvents, List.getLast?_concat]

end Printer
